import Mathlib

/-!
Shallow embedding of the purple-bank-transfer wizard
(`src/unnamed/part_000`: `TransferSummary` and the two-variant
`TransferForm`; `src/src/components/TransferForm.tsx`: the Stripe-enabled
international variant).

Modelling conventions:
* JavaScript strings are modelled as Lean `String`; `.length`, `.slice`
  and character classes are taken over Unicode scalar values (the claims
  only involve characters of the Basic Multilingual Plane, where JS
  UTF-16 code units and scalar values coincide).
* `undefined` string form values are modelled as `""` (react-hook-form
  renders an unset text field as the empty string, and every place the
  source reads such a value it coerces with `|| ""` or a falsiness test
  that identifies `undefined` with `""`).
* JS `Number(string)` is modelled exactly per the ECMAScript
  string-to-number grammar, except that the resulting value is kept as an
  exact rational instead of being rounded to binary64.  Both the schema
  code and the property statements go through this one model, so the
  abstraction is applied consistently to both sides.
-/

/-- Wizard step, `useState<"form" | "summary" | "success">`. -/
inductive Step
  | form
  | summary
  | success
deriving DecidableEq, Repr

/-- Transfer variant, the `activeTab` value `"domestic" | "international"`. -/
inductive Variant
  | domestic
  | international
deriving DecidableEq, Repr

/-! ## JS `Number(string)` model -/

/-- Result of JS `Number(string)`: `NaN`, an infinity, or a finite value
kept exact as `num * 10 ^ tenExp` (a scaled-decimal representation, so that
every operation stays kernel-computable on `ℤ`). -/
inductive JsNum
  | nan
  | posInf
  | negInf
  | fin (num : ℤ) (tenExp : ℤ)
deriving DecidableEq, Repr

/-- The exact rational value of a finite `JsNum`. -/
def JsNum.val : ℤ → ℤ → ℚ := fun num tenExp => (num : ℚ) * (10 : ℚ) ^ tenExp

/-- JS `isNaN(n)` on the result of `Number`. -/
def JsNum.isNaN : JsNum → Bool
  | .nan => true
  | _ => false

/-- JS comparison `n > 0` (false on `NaN`; the sign of `num * 10 ^ e`
is the sign of `num`). -/
def JsNum.gtZero : JsNum → Bool
  | .nan => false
  | .posInf => true
  | .negInf => false
  | .fin num _ => decide (0 < num)

/-- The characters trimmed by the ECMAScript StringToNumber conversion
(WhiteSpace and LineTerminator). -/
def isJsWhitespace (c : Char) : Bool :=
  c = ' ' ∨ c = '\t' ∨ c = '\n' ∨ c = '\r' ∨
  c = Char.ofNat 0x0B ∨ c = Char.ofNat 0x0C ∨
  c = Char.ofNat 0xA0 ∨ c = Char.ofNat 0x1680 ∨
  (Char.ofNat 0x2000 ≤ c ∧ c ≤ Char.ofNat 0x200A) ∨
  c = Char.ofNat 0x2028 ∨ c = Char.ofNat 0x2029 ∨
  c = Char.ofNat 0x202F ∨ c = Char.ofNat 0x205F ∨
  c = Char.ofNat 0x3000 ∨ c = Char.ofNat 0xFEFF

/-- Trim JS whitespace from both ends. -/
def jsTrim (l : List Char) : List Char :=
  ((l.dropWhile isJsWhitespace).reverse.dropWhile isJsWhitespace).reverse

/-- Value of a hexadecimal digit, `16` for a non-digit. -/
def hexDigitVal (c : Char) : ℕ :=
  if '0' ≤ c ∧ c ≤ '9' then c.toNat - 48
  else if 'a' ≤ c ∧ c ≤ 'f' then c.toNat - 87
  else if 'A' ≤ c ∧ c ≤ 'F' then c.toNat - 55
  else 16

/-- Whether `c` is a digit of base `b` (`b` one of 2, 8, 16). -/
def isRadixDigit (b : ℕ) (c : Char) : Bool :=
  hexDigitVal c < b

/-- Numeric value of a digit string in base `b`. -/
def digitsToNat (b : ℕ) (l : List Char) : ℕ :=
  l.foldl (fun a c => b * a + hexDigitVal c) 0

/-- Parse the ExponentPart tail (after the `e`/`E`): an optional sign
followed by at least one decimal digit. -/
def parseExponent (l : List Char) : Option ℤ :=
  match l with
  | '+' :: rest =>
      if rest ≠ [] ∧ rest.all Char.isDigit then some (digitsToNat 10 rest) else none
  | '-' :: rest =>
      if rest ≠ [] ∧ rest.all Char.isDigit then some (-(digitsToNat 10 rest : ℤ)) else none
  | rest =>
      if rest ≠ [] ∧ rest.all Char.isDigit then some (digitsToNat 10 rest) else none

/-- Parse `DecimalDigits [. [DecimalDigits]]` / `. DecimalDigits`
(no exponent), the whole list being consumed.  The result `(n, k)`
denotes the value `n / 10 ^ k`. -/
def parseDecMantissa (l : List Char) : Option (ℕ × ℕ) :=
  let ip := l.takeWhile Char.isDigit
  match l.dropWhile Char.isDigit with
  | [] => if ip.isEmpty then none else some (digitsToNat 10 ip, 0)
  | '.' :: fp =>
      if fp.all Char.isDigit ∧ ¬(ip.isEmpty ∧ fp.isEmpty) then
        some (digitsToNat 10 ip * 10 ^ fp.length + digitsToNat 10 fp, fp.length)
      else none
  | _ => none

/-- Parse `StrUnsignedDecimalLiteral` without the `Infinity` case:
a decimal mantissa with an optional exponent.  The result `(n, e)`
denotes the value `n * 10 ^ e`. -/
def parseUnsignedDec (l : List Char) : Option (ℕ × ℤ) :=
  match l.findIdx? (fun c => c = 'e' ∨ c = 'E') with
  | none => (parseDecMantissa l).map (fun m => (m.1, -(m.2 : ℤ)))
  | some i =>
      match parseDecMantissa (l.take i), parseExponent (l.drop (i + 1)) with
      | some m, some e => some (m.1, e - (m.2 : ℤ))
      | _, _ => none

/-- Parse an optionally signed decimal literal or `Infinity`. -/
def parseSignedDec (l : List Char) : JsNum :=
  let unsigned : List Char → Bool → JsNum := fun l neg =>
    if l = "Infinity".toList then (if neg then .negInf else .posInf)
    else
      match parseUnsignedDec l with
      | some m => .fin (if neg then -(m.1 : ℤ) else (m.1 : ℤ)) m.2
      | none => .nan
  match l with
  | '+' :: rest => unsigned rest false
  | '-' :: rest => unsigned rest true
  | rest => unsigned rest false

/-- JS `Number(string)` on the trimmed character list: empty means `0`;
`0x`/`0o`/`0b` radix literals (unsigned); otherwise a signed decimal
literal or `Infinity`; anything else is `NaN`. -/
def strToNumberCore (l : List Char) : JsNum :=
  match l with
  | [] => .fin 0 0
  | '0' :: c :: rest =>
      if c = 'x' ∨ c = 'X' then
        (if rest ≠ [] ∧ rest.all (isRadixDigit 16) then .fin (digitsToNat 16 rest) 0 else .nan)
      else if c = 'o' ∨ c = 'O' then
        (if rest ≠ [] ∧ rest.all (isRadixDigit 8) then .fin (digitsToNat 8 rest) 0 else .nan)
      else if c = 'b' ∨ c = 'B' then
        (if rest ≠ [] ∧ rest.all (isRadixDigit 2) then .fin (digitsToNat 2 rest) 0 else .nan)
      else parseSignedDec l
  | l => parseSignedDec l

/-- JS `Number(s)` for a string `s`. -/
def strToNumber (s : String) : JsNum :=
  strToNumberCore (jsTrim s.toList)

/-- The `amount` refinement shared by every schema in the repository:
`(val) => !isNaN(Number(val)) && Number(val) > 0`. -/
def amountOk (val : String) : Bool :=
  !(strToNumber val).isNaN && (strToNumber val).gtZero

/-! ## Validation schemas of the two-variant form (`src/unnamed/part_000`) -/

/-- The field values of a domestic draft (the `z.literal("domestic")`
discriminant is carried by the surrounding sum type). -/
structure DomesticDraft where
  recipientName : String
  accountNumber : String
  routingNumber : String
  bankName : String
  amount : String
  description : Option String
deriving DecidableEq, Repr

/-- The field values of an international draft. -/
structure InternationalDraft where
  recipientName : String
  iban : String
  swiftCode : String
  bankName : String
  bankAddress : String
  bankCountry : String
  amount : String
  currency : String
  description : Option String
deriving DecidableEq, Repr

/-- The union `transferFormSchema = z.discriminatedUnion("transferType", ...)`:
a draft is a domestic or an international record. -/
inductive TransferFormValues
  | domestic (d : DomesticDraft)
  | international (d : InternationalDraft)
deriving DecidableEq, Repr

/-- A single zod issue block: when `b` holds, one issue with path `f`
and message `m`. -/
def check (b : Bool) (f m : String) : List (String × String) :=
  if b then [(f, m)] else []

/-- Issues produced by `domesticFormSchema.safeParse`, in schema field
order.  `min(n)` on `z.string()` fails iff the length is below `n`;
`max(n)` (no custom message) uses zod's default message; `amount` uses
the `refine` modelled by `amountOk`. -/
def validateDomestic (d : DomesticDraft) : List (String × String) :=
  check (decide (d.recipientName.length < 2)) "recipientName"
      "Name must be at least 2 characters." ++
  check (decide (d.accountNumber.length < 8)) "accountNumber"
      "Account number must be at least 8 characters." ++
  check (decide (d.routingNumber.length < 9)) "routingNumber"
      "Routing number must be 9 digits." ++
  check (decide (9 < d.routingNumber.length)) "routingNumber"
      "String must contain at most 9 character(s)" ++
  check (decide (d.bankName.length < 2)) "bankName"
      "Bank name is required." ++
  check (!amountOk d.amount) "amount"
      "Amount must be a positive number."

/-- Issues produced by `internationalFormSchema.safeParse` (the variant
without Stripe fields, from `src/unnamed/part_000`), in schema field
order. -/
def validateInternational (d : InternationalDraft) : List (String × String) :=
  check (decide (d.recipientName.length < 2)) "recipientName"
      "Name must be at least 2 characters." ++
  check (decide (d.iban.length < 15)) "iban"
      "IBAN must be at least 15 characters." ++
  check (decide (d.swiftCode.length < 8)) "swiftCode"
      "SWIFT/BIC code must be at least 8 characters." ++
  check (decide (11 < d.swiftCode.length)) "swiftCode"
      "String must contain at most 11 character(s)" ++
  check (decide (d.bankName.length < 2)) "bankName"
      "Bank name is required." ++
  check (decide (d.bankAddress.length < 5)) "bankAddress"
      "Bank address is required." ++
  check (decide (d.bankCountry.length < 2)) "bankCountry"
      "Bank country is required." ++
  check (!amountOk d.amount) "amount"
      "Amount must be a positive number." ++
  check (decide (d.currency.length < 3)) "currency"
      "Currency code is required."

/-- Validation of a draft under the schema selected by its
`transferType` discriminant (the resolver applies `domesticFormSchema`
or `internationalFormSchema` according to the active tab). -/
def validateTransfer : TransferFormValues → List (String × String)
  | .domestic d => validateDomestic d
  | .international d => validateInternational d

/-! ## Wizard controller state and submission (`src/unnamed/part_000`) -/

/-- The component state relevant to submission: `step`, the committed
`formData`, and the per-field errors surfaced by the resolver. -/
structure WizardState where
  step : Step
  formData : Option TransferFormValues
  errors : List (String × String)
deriving DecidableEq, Repr

/-- Submission via `form.handleSubmit(onSubmit)`: the resolver validates the draft;
on success `onSubmit` runs (`setFormData(data); setStep("summary")`),
on failure the handler is not called and the field errors are surfaced. -/
def submitForReview (s : WizardState) (d : TransferFormValues) : WizardState :=
  if validateTransfer d = [] then
    { s with formData := some d, step := .summary, errors := [] }
  else
    { s with errors := validateTransfer d }

/-- Which field of a draft violates its schema rule (the per-field
constraints of §3 of the spec, stated independently of the issue list). -/
def fieldViolated (f : String) : TransferFormValues → Prop
  | .domestic d =>
      (f = "recipientName" ∧ d.recipientName.length < 2) ∨
      (f = "accountNumber" ∧ d.accountNumber.length < 8) ∨
      (f = "routingNumber" ∧ d.routingNumber.length ≠ 9) ∨
      (f = "bankName" ∧ d.bankName.length < 2) ∨
      (f = "amount" ∧ amountOk d.amount = false)
  | .international d =>
      (f = "recipientName" ∧ d.recipientName.length < 2) ∨
      (f = "iban" ∧ d.iban.length < 15) ∨
      (f = "swiftCode" ∧ (d.swiftCode.length < 8 ∨ 11 < d.swiftCode.length)) ∨
      (f = "bankName" ∧ d.bankName.length < 2) ∨
      (f = "bankAddress" ∧ d.bankAddress.length < 5) ∨
      (f = "bankCountry" ∧ d.bankCountry.length < 2) ∨
      (f = "amount" ∧ amountOk d.amount = false) ∨
      (f = "currency" ∧ d.currency.length < 3)

/-! ## Stripe-enabled schema (`src/src/components/TransferForm.tsx`) -/

/-- The field values of the Stripe-enabled international form.
`stripeAccountId` and `stripePublishableKey` are `z.string().optional()`
with form default `""`; an `undefined` value is modelled as `""` (the
source's `!data.stripeAccountId || data.stripeAccountId.length < 3`
treats `undefined` and `""` alike, and both have length `< 3`). -/
structure StripeDraft where
  recipientName : String
  iban : String
  swiftCode : String
  bankName : String
  bankAddress : String
  bankCountry : String
  amount : String
  currency : String
  description : Option String
  useStripe : Bool
  stripeAccountId : String
  stripePublishableKey : String
deriving DecidableEq, Repr

/-- Issues of the base `z.object` of `internationalFormSchema` in
`TransferForm.tsx`, before the two `.refine` steps. -/
def stripeBaseErrors (d : StripeDraft) : List (String × String) :=
  check (decide (d.recipientName.length < 2)) "recipientName"
      "Name must be at least 2 characters." ++
  check (decide (d.iban.length < 15)) "iban"
      "IBAN must be at least 15 characters." ++
  check (decide (d.swiftCode.length < 8)) "swiftCode"
      "SWIFT/BIC code must be at least 8 characters." ++
  check (decide (11 < d.swiftCode.length)) "swiftCode"
      "String must contain at most 11 character(s)" ++
  check (decide (d.bankName.length < 2)) "bankName"
      "Bank name is required." ++
  check (decide (d.bankAddress.length < 5)) "bankAddress"
      "Bank address is required." ++
  check (decide (d.bankCountry.length < 2)) "bankCountry"
      "Bank country is required." ++
  check (!amountOk d.amount) "amount"
      "Amount must be a positive number." ++
  check (decide (d.currency.length < 3)) "currency"
      "Currency code is required."

/-- Issues of `internationalFormSchema.safeParse` in `TransferForm.tsx`: the two
chained `.refine` steps run only when the base object parses, and each
failing refinement adds one issue at its declared `path`. -/
def validateInternationalStripe (d : StripeDraft) : List (String × String) :=
  if stripeBaseErrors d = [] then
    check (d.useStripe && decide (d.stripeAccountId.length < 3)) "stripeAccountId"
        "Stripe Account ID is required when using Stripe." ++
    check (d.useStripe && decide (d.stripePublishableKey.length < 10)) "stripePublishableKey"
        "Stripe Publishable Key is required when using Stripe."
  else stripeBaseErrors d

/-! ## Summary renderer masking (`src/unnamed/part_000`, `TransferSummary`) -/

/-- Clamp a JS `slice` index to `[0, n]`: a negative index counts from
the end. -/
def jsSliceIndex (n : ℕ) (i : ℤ) : ℕ :=
  if i < 0 then ((n : ℤ) + i).toNat else min i.toNat n

/-- JS `s.slice(a, b)` (the one-argument form passes `b = s.length`). -/
def jsSlice (s : String) (a b : ℤ) : String :=
  String.mk (((s.toList).take (jsSliceIndex s.toList.length b)).drop
    (jsSliceIndex s.toList.length a))

/-- One character under `replace(/./g, '*')`: `.` matches any UTF-16
unit except the LineTerminator characters, which are left unchanged. -/
def jsDotStar (c : Char) : Char :=
  if c = '\n' ∨ c = '\r' ∨ c = Char.ofNat 0x2028 ∨ c = Char.ofNat 0x2029 then c else '*'

/-- The expression `formData.accountNumber.slice(0, -4).replace(/./g, mask) +
formData.accountNumber.slice(-4)` (mask being the star character) — the
summary's account-number cell. -/
def maskAccountNumber (acct : String) : String :=
  String.mk ((jsSlice acct 0 (-4)).toList.map jsDotStar) ++
    jsSlice acct (-4) acct.toList.length

/-- The expression `formData.iban.slice(0, 4) + bullets + formData.iban.slice(-4)`
(bullets being the literal 9-bullet string) — the summary's IBAN cell. -/
def maskIban (iban : String) : String :=
  jsSlice iban 0 4 ++ "•••••••••" ++ jsSlice iban (-4) iban.toList.length

/-- The account-number string rendered by `TransferSummary` for a
domestic committed draft. -/
def displayedAccountNumber (d : DomesticDraft) : String :=
  maskAccountNumber d.accountNumber

/-- The IBAN string rendered by `TransferSummary` for an international
committed draft. -/
def displayedIban (d : InternationalDraft) : String :=
  maskIban d.iban

/-! ## Tab-change effect (`src/unnamed/part_000`, `React.useEffect`) -/

/-- The react-hook-form value store of the two-variant form: one slot
per registered field, `""` standing for an unset (`undefined`) value. -/
structure FormFields where
  transferType : Variant
  recipientName : String
  amount : String
  description : String
  accountNumber : String
  routingNumber : String
  bankName : String
  iban : String
  swiftCode : String
  bankAddress : String
  bankCountry : String
  currency : String
deriving DecidableEq, Repr

/-- JS `x || ""` on a string value (exactly the empty string is falsy). -/
def orEmpty (s : String) : String :=
  if s = "" then ("") else s

/-- The `useEffect` that runs when `activeTab` changes: `form.reset`
replaces the whole value store with the given object; fields absent from
the object become unset (modelled as `""`). -/
def resetForTab (t : Variant) (f : FormFields) : FormFields :=
  match t with
  | .domestic =>
      { transferType := .domestic
        recipientName := orEmpty f.recipientName
        amount := orEmpty f.amount
        description := orEmpty f.description
        accountNumber := ""
        routingNumber := ""
        bankName := orEmpty f.bankName
        iban := ""
        swiftCode := ""
        bankAddress := ""
        bankCountry := ""
        currency := "" }
  | .international =>
      { transferType := .international
        recipientName := orEmpty f.recipientName
        amount := orEmpty f.amount
        description := orEmpty f.description
        accountNumber := ""
        routingNumber := ""
        bankName := orEmpty f.bankName
        iban := ""
        swiftCode := ""
        bankAddress := ""
        bankCountry := ""
        currency := "USD" }

/-! ## Confirm-transfer event model (`handleConfirmTransfer`) -/

/-- The observable state of the confirm flow: the wizard step, the
number of simulated submissions still pending (scheduled `setTimeout`
callbacks), the number of submissions issued to the collaborator, and
the number of success toasts shown. -/
structure ConfirmFlowState where
  step : Step
  pendingTimers : ℕ
  submissionsIssued : ℕ
  successToasts : ℕ
deriving DecidableEq, Repr

/-- One invocation of `handleConfirmTransfer`: unconditionally logs the
submission and schedules a `setTimeout` — there is no pending guard in
the source. -/
def handleConfirmTransfer (s : ConfirmFlowState) : ConfirmFlowState :=
  { s with
    submissionsIssued := s.submissionsIssued + 1
    pendingTimers := s.pendingTimers + 1 }

/-- Expiry of one scheduled timeout: the callback shows the success
toast and runs `setStep("success")`. -/
def fireTimer (s : ConfirmFlowState) : ConfirmFlowState :=
  if s.pendingTimers = 0 then s
  else
    { s with
      pendingTimers := s.pendingTimers - 1
      successToasts := s.successToasts + 1
      step := .success }

/-! ## Concrete values used by witnesses and counterexamples -/

/-- The spec's §8 scenario draft (domestic, all fields valid). -/
def johnDoeDraft : DomesticDraft :=
  { recipientName := "John Doe"
    accountNumber := "1234567890"
    routingNumber := "123456789"
    bankName := "Bank A"
    amount := "250.00"
    description := none }

/-- A domestic draft with a too-short recipient name and every other
field valid. -/
def shortNameDraft : DomesticDraft :=
  { johnDoeDraft with recipientName := "J" }

/-- A validated domestic draft whose account number starts with a
newline character (the schema imposes only a length bound). -/
def newlineAccountDraft : DomesticDraft :=
  { johnDoeDraft with accountNumber := "\nabc7890" }

/-- The fresh wizard state: `form` step, nothing committed. -/
def initialWizardState : WizardState :=
  { step := .form, formData := none, errors := [] }

/-- A Stripe draft with `useStripe := true`, an empty
`stripeAccountId`, a long-enough publishable key, and every base field
valid — the spec's §8 Stripe scenario. -/
def stripeScenarioDraft : StripeDraft :=
  { recipientName := "John Doe"
    iban := "GB29NWBK60161331926819"
    swiftCode := "NWBKGB2L"
    bankName := "International Bank"
    bankAddress := "123 Bank St, City"
    bankCountry := "United Kingdom"
    amount := "250.00"
    currency := "USD"
    description := none
    useStripe := true
    stripeAccountId := ""
    stripePublishableKey := "pk_test_1234567890" }

/-- A form value store as it stands on the international tab with a
non-default currency. -/
def euroFormFields : FormFields :=
  { transferType := .international
    recipientName := "John Doe"
    amount := "250.00"
    description := "Rent"
    accountNumber := ""
    routingNumber := ""
    bankName := "International Bank"
    iban := "GB29NWBK60161331926819"
    swiftCode := "NWBKGB2L"
    bankAddress := "123 Bank St, City"
    bankCountry := "United Kingdom"
    currency := "EUR" }

/-- The confirm flow as it stands on the summary step, nothing pending. -/
def summaryConfirmState : ConfirmFlowState :=
  { step := .summary, pendingTimers := 0, submissionsIssued := 0, successToasts := 0 }

/-! ## Spec-side predicates and projections -/

/-- The spec's wording for the amount rule: the string parses (under JS
`Number`) as a number strictly greater than zero (an infinite parse
result is a number greater than zero; `NaN` is not a number). -/
def parsesPositive (s : String) : Prop :=
  match strToNumber s with
  | .posInf => True
  | .fin num tenExp => 0 < JsNum.val num tenExp
  | _ => False

/-- The first `k` characters of a string. -/
def firstChars (k : ℕ) (s : String) : String :=
  String.mk (s.toList.take k)

/-- The last `k` characters of a string. -/
def lastChars (k : ℕ) (s : String) : String :=
  String.mk (s.toList.drop (s.toList.length - k))

/-! ## Helper lemmas -/

theorem mem_check_map (a : String) (b : Bool) (f m : String) :
    a ∈ (check b f m).map Prod.fst ↔ (b = true ∧ a = f) := by
  cases b <;> simp [check]

theorem all_check_of (P : String × String → Bool) (b : Bool) (f m : String)
    (h : P (f, m) = true) : (check b f m).all P = true := by
  cases b <;> simp [check, h]

theorem validate_messages_nonempty (d : TransferFormValues) :
    (validateTransfer d).all (fun p => !p.2.isEmpty) = true := by
  cases d with
  | domestic d =>
      simp only [validateTransfer, validateDomestic, List.all_append, Bool.and_eq_true]
      exact ⟨⟨⟨⟨⟨all_check_of _ _ _ _ (by decide), all_check_of _ _ _ _ (by decide)⟩,
        all_check_of _ _ _ _ (by decide)⟩, all_check_of _ _ _ _ (by decide)⟩,
        all_check_of _ _ _ _ (by decide)⟩, all_check_of _ _ _ _ (by decide)⟩
  | international d =>
      simp only [validateTransfer, validateInternational, List.all_append, Bool.and_eq_true]
      exact ⟨⟨⟨⟨⟨⟨⟨⟨all_check_of _ _ _ _ (by decide), all_check_of _ _ _ _ (by decide)⟩,
        all_check_of _ _ _ _ (by decide)⟩, all_check_of _ _ _ _ (by decide)⟩,
        all_check_of _ _ _ _ (by decide)⟩, all_check_of _ _ _ _ (by decide)⟩,
        all_check_of _ _ _ _ (by decide)⟩, all_check_of _ _ _ _ (by decide)⟩,
        all_check_of _ _ _ _ (by decide)⟩

theorem mem_fields_iff (d : TransferFormValues) (f : String) :
    f ∈ (validateTransfer d).map Prod.fst ↔ fieldViolated f d := by
  cases d with
  | domestic d =>
      simp only [validateTransfer, validateDomestic, fieldViolated, List.map_append,
        List.mem_append, mem_check_map, decide_eq_true_eq, Bool.not_eq_true',
        ne_iff_lt_or_gt, and_or_left, or_assoc, and_comm]
  | international d =>
      simp only [validateTransfer, validateInternational, fieldViolated, List.map_append,
        List.mem_append, mem_check_map, decide_eq_true_eq, Bool.not_eq_true',
        and_or_left, or_assoc, and_comm]

/-! ## Claim theorems -/

/-- C1: for every draft in which every required field of the active
variant satisfies its constraint (the resolver reports no issue),
`submitForReview` moves the wizard from the `form` step to the
`summary` step and commits `formData` to exactly the input draft. -/
theorem submitForReview_valid_commits (s : WizardState) (d : TransferFormValues)
    (_hs : s.step = .form) (hv : validateTransfer d = []) :
    (submitForReview s d).step = .summary ∧
    (submitForReview s d).formData = some d := by
  rw [submitForReview, if_pos hv]
  exact ⟨rfl, rfl⟩

theorem submitForReview_valid_commits_witness :
    initialWizardState.step = .form ∧
    validateTransfer (.domestic johnDoeDraft) = [] ∧
    ((submitForReview initialWizardState (.domestic johnDoeDraft)).step = .summary ∧
      (submitForReview initialWizardState (.domestic johnDoeDraft)).formData =
        some (.domestic johnDoeDraft)) :=
  ⟨rfl, by decide,
    submitForReview_valid_commits initialWizardState (.domestic johnDoeDraft) rfl (by decide)⟩

/-- C2: for every draft with at least one violated field,
`submitForReview` stays on the `form` step, leaves the committed draft
untouched, every surfaced error message is non-empty, and a field name
appears among the errors exactly when that field violates its rule. -/
theorem submitForReview_invalid_errors (s : WizardState) (d : TransferFormValues)
    (f : String) (hs : s.step = .form) (hv : validateTransfer d ≠ []) :
    (submitForReview s d).step = .form ∧
    (submitForReview s d).formData = s.formData ∧
    (validateTransfer d).all (fun p => !p.2.isEmpty) = true ∧
    (f ∈ (validateTransfer d).map Prod.fst ↔ fieldViolated f d) := by
  rw [submitForReview, if_neg hv]
  exact ⟨hs, rfl, validate_messages_nonempty d, mem_fields_iff d f⟩

theorem submitForReview_invalid_errors_witness :
    initialWizardState.step = .form ∧
    validateTransfer (.domestic shortNameDraft) ≠ [] ∧
    ((submitForReview initialWizardState (.domestic shortNameDraft)).step = .form ∧
      (submitForReview initialWizardState (.domestic shortNameDraft)).formData =
        initialWizardState.formData ∧
      (validateTransfer (.domestic shortNameDraft)).all (fun p => !p.2.isEmpty) = true ∧
      ("recipientName" ∈ (validateTransfer (.domestic shortNameDraft)).map Prod.fst ↔
        fieldViolated ("recipientName") (.domestic shortNameDraft))) :=
  ⟨rfl, by decide,
    submitForReview_invalid_errors initialWizardState (.domestic shortNameDraft)
      "recipientName" rfl (by decide)⟩

/-- C3: the amount rule accepts a string exactly when it parses (under
JS `Number`) as a number strictly greater than zero; in particular
`"0"`, `"-5"` and `"abc"` are rejected while `"12.50"` and `"0.01"`
are accepted. -/
theorem amount_rule_positive :
    amountOk ("0") = false ∧ amountOk ("-5") = false ∧ amountOk ("abc") = false ∧
    amountOk ("12.50") = true ∧ amountOk ("0.01") = true ∧
    ∀ s : String, amountOk s = true ↔ parsesPositive s := by
  refine ⟨by decide, by decide, by decide, by decide, by decide, fun s => ?_⟩
  unfold amountOk parsesPositive
  rcases strToNumber s with _ | _ | _ | ⟨num, e⟩
  · simp [JsNum.isNaN, JsNum.gtZero]
  · simp [JsNum.isNaN, JsNum.gtZero]
  · simp [JsNum.isNaN, JsNum.gtZero]
  · simp only [JsNum.isNaN, JsNum.gtZero, Bool.not_false, Bool.true_and, decide_eq_true_eq]
    have h10 : (0 : ℚ) < (10 : ℚ) ^ e := zpow_pos (by norm_num) e
    show 0 < num ↔ 0 < (num : ℚ) * (10 : ℚ) ^ e
    rw [mul_pos_iff_of_pos_right h10, Int.cast_pos]

/-- C4: for a Stripe-variant draft whose base field rules all pass, the
draft validates exactly when `useStripe` is off or both Stripe fields
meet their minimum lengths; a violated Stripe field yields the error on
that field's own path (never on `useStripe`), and when only one Stripe
field is violated it is the only error. -/
theorem stripe_conditional_requirements (d : StripeDraft)
    (hbase : stripeBaseErrors d = []) :
    (validateInternationalStripe d = [] ↔
      (d.useStripe = false ∨
        (3 ≤ d.stripeAccountId.length ∧ 10 ≤ d.stripePublishableKey.length))) ∧
    (d.useStripe = true → d.stripeAccountId.length < 3 →
      10 ≤ d.stripePublishableKey.length →
      validateInternationalStripe d =
        [("stripeAccountId", "Stripe Account ID is required when using Stripe.")]) ∧
    (d.useStripe = true → d.stripePublishableKey.length < 10 →
      3 ≤ d.stripeAccountId.length →
      validateInternationalStripe d =
        [("stripePublishableKey", "Stripe Publishable Key is required when using Stripe.")]) ∧
    (validateInternationalStripe d).all (fun p => p.1 ≠ "useStripe") = true := by
  rw [validateInternationalStripe, if_pos hbase]
  cases hu : d.useStripe with
  | false => simp [check]
  | true =>
      by_cases h1 : d.stripeAccountId.length < 3 <;>
        by_cases h2 : d.stripePublishableKey.length < 10 <;>
        simp [check, h1, h2] <;> omega

theorem stripe_conditional_requirements_witness :
    stripeBaseErrors stripeScenarioDraft = [] ∧
    ((validateInternationalStripe stripeScenarioDraft = [] ↔
      (stripeScenarioDraft.useStripe = false ∨
        (3 ≤ stripeScenarioDraft.stripeAccountId.length ∧
          10 ≤ stripeScenarioDraft.stripePublishableKey.length))) ∧
    (stripeScenarioDraft.useStripe = true →
      stripeScenarioDraft.stripeAccountId.length < 3 →
      10 ≤ stripeScenarioDraft.stripePublishableKey.length →
      validateInternationalStripe stripeScenarioDraft =
        [("stripeAccountId", "Stripe Account ID is required when using Stripe.")]) ∧
    (stripeScenarioDraft.useStripe = true →
      stripeScenarioDraft.stripePublishableKey.length < 10 →
      3 ≤ stripeScenarioDraft.stripeAccountId.length →
      validateInternationalStripe stripeScenarioDraft =
        [("stripePublishableKey", "Stripe Publishable Key is required when using Stripe.")]) ∧
    (validateInternationalStripe stripeScenarioDraft).all
      (fun p => p.1 ≠ "useStripe") = true) :=
  ⟨by decide, stripe_conditional_requirements stripeScenarioDraft (by decide)⟩

/-- C5: `handleConfirmTransfer` has no pending guard — calling it twice
while the first simulated submission is pending issues two submissions
and fires two success toasts; the second call is not a no-op. -/
theorem confirmTransfer_duplicate_submission :
    (fireTimer (fireTimer (handleConfirmTransfer (handleConfirmTransfer
        summaryConfirmState)))).submissionsIssued = 2 ∧
    (fireTimer (fireTimer (handleConfirmTransfer (handleConfirmTransfer
        summaryConfirmState)))).successToasts = 2 ∧
    handleConfirmTransfer (handleConfirmTransfer summaryConfirmState) ≠
      handleConfirmTransfer summaryConfirmState := by decide

theorem toList_mk (l : List Char) : (String.mk l).toList = l := rfl

theorem mk_toList (s : String) : String.mk s.toList = s := rfl

theorem mk_append (a b : List Char) : String.mk a ++ String.mk b = String.mk (a ++ b) := rfl

theorem jsSliceIndex_zero (n : ℕ) : jsSliceIndex n 0 = 0 := by
  unfold jsSliceIndex; split <;> omega

theorem jsSliceIndex_neg4 (n : ℕ) : jsSliceIndex n (-4) = n - 4 := by
  unfold jsSliceIndex; split <;> omega

theorem jsSliceIndex_len (n : ℕ) : jsSliceIndex n (n : ℤ) = n := by
  unfold jsSliceIndex; split <;> omega

theorem jsSlice_head_neg4 (s : String) :
    jsSlice s 0 (-4) = String.mk (s.toList.take (s.toList.length - 4)) := by
  unfold jsSlice
  rw [jsSliceIndex_neg4, jsSliceIndex_zero, List.drop_zero]

theorem jsSlice_suffix_neg4 (s : String) :
    jsSlice s (-4) s.toList.length = String.mk (s.toList.drop (s.toList.length - 4)) := by
  unfold jsSlice
  rw [jsSliceIndex_neg4, jsSliceIndex_len, List.take_length]

theorem jsSlice_first4 (s : String) (h : 4 ≤ s.toList.length) :
    jsSlice s 0 4 = String.mk (s.toList.take 4) := by
  unfold jsSlice
  have h4 : jsSliceIndex s.toList.length 4 = 4 := by
    unfold jsSliceIndex; split <;> omega
  rw [h4, jsSliceIndex_zero, List.drop_zero]

theorem maskAccountNumber_shape (s : String) :
    maskAccountNumber s =
      String.mk ((s.toList.take (s.toList.length - 4)).map jsDotStar) ++
        String.mk (s.toList.drop (s.toList.length - 4)) := by
  unfold maskAccountNumber
  rw [jsSlice_head_neg4, jsSlice_suffix_neg4, toList_mk]

theorem maskIban_shape (s : String) (h : 4 ≤ s.toList.length) :
    maskIban s =
      String.mk (s.toList.take 4) ++ "•••••••••" ++
        String.mk (s.toList.drop (s.toList.length - 4)) := by
  unfold maskIban
  rw [jsSlice_first4 s h, jsSlice_suffix_neg4]

theorem take_append_len (p q : List Char) (k : ℕ) (h : k = p.length) :
    (p ++ q).take k = p := by
  subst h; exact List.take_left p q

theorem drop_append_len (p q : List Char) (k : ℕ) (h : k = p.length) :
    (p ++ q).drop k = q := by
  subst h; exact List.drop_left p q

/-- C6 (amended): for a committed domestic draft whose account number
has at least 4 characters, the summary shows every character of the
prefix replaced by `'*'` — except that the LineTerminator characters,
which JS `/./` does not match, are left unchanged — followed by the
last 4 characters verbatim; on `"1234567890"` this renders
`"******7890"`. -/
theorem maskAccountNumber_mask_rule (d : DomesticDraft)
    (_h : 4 ≤ d.accountNumber.toList.length) :
    displayedAccountNumber d =
      String.mk ((d.accountNumber.toList.take (d.accountNumber.toList.length - 4)).map
        (fun c => if c = '\n' ∨ c = '\r' ∨ c = Char.ofNat 0x2028 ∨ c = Char.ofNat 0x2029
          then c else '*')) ++
      String.mk (d.accountNumber.toList.drop (d.accountNumber.toList.length - 4)) ∧
    displayedAccountNumber johnDoeDraft = "******7890" :=
  ⟨maskAccountNumber_shape d.accountNumber, by decide⟩

theorem maskAccountNumber_mask_rule_witness :
    4 ≤ johnDoeDraft.accountNumber.toList.length ∧
    (displayedAccountNumber johnDoeDraft =
      String.mk ((johnDoeDraft.accountNumber.toList.take
          (johnDoeDraft.accountNumber.toList.length - 4)).map
        (fun c => if c = '\n' ∨ c = '\r' ∨ c = Char.ofNat 0x2028 ∨ c = Char.ofNat 0x2029
          then c else '*')) ++
      String.mk (johnDoeDraft.accountNumber.toList.drop
        (johnDoeDraft.accountNumber.toList.length - 4)) ∧
    displayedAccountNumber johnDoeDraft = "******7890") :=
  ⟨by decide, maskAccountNumber_mask_rule johnDoeDraft (by decide)⟩

/-- C6 counterexample: a draft that passes domestic validation and has
an account number of length 8 starting with a newline; the summary does
not replace the newline with `'*'`, so the displayed value differs from
the all-but-last-4-starred string the claim requires. -/
theorem maskAccountNumber_newline_cex :
    validateDomestic newlineAccountDraft = [] ∧
    4 ≤ newlineAccountDraft.accountNumber.toList.length ∧
    displayedAccountNumber newlineAccountDraft = "\n***7890" ∧
    displayedAccountNumber newlineAccountDraft ≠ "****7890" := by decide

/-- C7 (amended): when the committed account number has fewer than 4
characters, the summary displays it completely unmasked — `slice(0,-4)`
is empty and `slice(-4)` is the whole string — rather than masking
everything. -/
theorem maskAccountNumber_short_verbatim (d : DomesticDraft)
    (h : d.accountNumber.toList.length < 4) :
    displayedAccountNumber d = d.accountNumber := by
  unfold displayedAccountNumber
  rw [maskAccountNumber_shape]
  have h0 : d.accountNumber.toList.length - 4 = 0 := by omega
  rw [h0, List.take_zero, List.map_nil, List.drop_zero, mk_append, List.nil_append,
    mk_toList]

theorem maskAccountNumber_short_verbatim_witness :
    ({ johnDoeDraft with accountNumber := "123" } :
        DomesticDraft).accountNumber.toList.length < 4 ∧
    displayedAccountNumber { johnDoeDraft with accountNumber := "123" } =
      ({ johnDoeDraft with accountNumber := "123" } : DomesticDraft).accountNumber :=
  ⟨by decide, maskAccountNumber_short_verbatim _ (by decide)⟩

/-- C7 counterexample: for the 3-character account number `"123"` the
summary shows `"123"` itself — every character appears verbatim and no
mask character occurs, refuting "masks everything". -/
theorem maskAccountNumber_short_cex :
    displayedAccountNumber { johnDoeDraft with accountNumber := "123" } = "123" ∧
    ("123" : String).toList.all (fun c => c ≠ '*') = true := by decide

/-- C8: masking round-trips on well-formed input — for an account
number of length at least 4 the last 4 characters of the masked string
equal the last 4 of the original, and for an IBAN of length at least 15
the first 4 and last 4 characters of the masked string equal those of
the original, with the middle replaced by the fixed 9-character bullet
token so the masked IBAN always has length 17. -/
theorem masking_roundtrip (acct iban : String)
    (ha : 4 ≤ acct.toList.length) (hi : 15 ≤ iban.toList.length) :
    lastChars 4 (maskAccountNumber acct) = lastChars 4 acct ∧
    firstChars 4 (maskIban iban) = firstChars 4 iban ∧
    lastChars 4 (maskIban iban) = lastChars 4 iban ∧
    ((maskIban iban).toList.drop 4).take 9 = List.replicate 9 '•' ∧
    (maskIban iban).toList.length = 17 := by
  have hi4 : 4 ≤ iban.toList.length := by omega
  have hb : ("•••••••••" : String) = String.mk (List.replicate 9 '•') := by decide
  have haP : ((acct.toList.take (acct.toList.length - 4)).map jsDotStar).length =
      acct.toList.length - 4 := by
    simp only [List.length_map, List.length_take]
    omega
  have hiA : (iban.toList.take 4).length = 4 := by
    simp only [List.length_take]
    omega
  have hiShape : maskIban iban =
      String.mk ((iban.toList.take 4 ++ List.replicate 9 '•') ++
        iban.toList.drop (iban.toList.length - 4)) := by
    rw [maskIban_shape iban hi4, hb, mk_append, mk_append]
  refine ⟨?_, ?_, ?_, ?_, ?_⟩
  · rw [maskAccountNumber_shape, mk_append]
    unfold lastChars
    rw [toList_mk]
    have hlen : ((acct.toList.take (acct.toList.length - 4)).map jsDotStar ++
        acct.toList.drop (acct.toList.length - 4)).length = acct.toList.length := by
      rw [List.length_append, haP, List.length_drop]
      omega
    rw [hlen, drop_append_len _ _ _ haP.symm]
  · rw [hiShape]
    unfold firstChars
    rw [toList_mk, List.append_assoc,
      take_append_len _ _ _ hiA.symm]
  · rw [hiShape]
    unfold lastChars
    rw [toList_mk]
    have h13 : ((iban.toList.take 4 ++ List.replicate 9 '•')).length = 13 := by
      rw [List.length_append, hiA, List.length_replicate]
    have hlen : ((iban.toList.take 4 ++ List.replicate 9 '•') ++
        iban.toList.drop (iban.toList.length - 4)).length = 17 := by
      rw [List.length_append, h13, List.length_drop]
      omega
    rw [hlen]
    rw [drop_append_len _ _ _ (by rw [h13])]
  · rw [hiShape, toList_mk, List.append_assoc,
      drop_append_len _ _ _ hiA.symm,
      take_append_len _ _ _ (by rw [List.length_replicate])]
  · rw [hiShape, toList_mk]
    simp only [List.length_append, List.length_take, List.length_replicate,
      List.length_drop]
    omega

theorem masking_roundtrip_witness :
    4 ≤ ("1234567890" : String).toList.length ∧
    15 ≤ ("GB29NWBK60161331926819" : String).toList.length ∧
    (lastChars 4 (maskAccountNumber ("1234567890")) = lastChars 4 ("1234567890") ∧
    firstChars 4 (maskIban ("GB29NWBK60161331926819")) =
      firstChars 4 ("GB29NWBK60161331926819") ∧
    lastChars 4 (maskIban ("GB29NWBK60161331926819")) =
      lastChars 4 ("GB29NWBK60161331926819") ∧
    ((maskIban ("GB29NWBK60161331926819")).toList.drop 4).take 9 =
      List.replicate 9 '•' ∧
    (maskIban ("GB29NWBK60161331926819")).toList.length = 17) :=
  ⟨by decide, by decide,
    masking_roundtrip ("1234567890") ("GB29NWBK60161331926819") (by decide) (by decide)⟩

/-- C9 (amended): switching the active variant preserves
`recipientName`, `amount`, `description` (and also `bankName`), and
resets `accountNumber`, `routingNumber`, `iban`, `swiftCode`,
`bankAddress` and `bankCountry` to empty; `currency` becomes `"USD"`
when switching to the international tab but is cleared (left unset)
when switching to the domestic tab, because the domestic reset object
omits it. -/
theorem tabChange_reset_behavior (t : Variant) (f : FormFields) :
    (resetForTab t f).recipientName = f.recipientName ∧
    (resetForTab t f).amount = f.amount ∧
    (resetForTab t f).description = f.description ∧
    (resetForTab t f).bankName = f.bankName ∧
    (resetForTab t f).accountNumber = "" ∧
    (resetForTab t f).routingNumber = "" ∧
    (resetForTab t f).iban = "" ∧
    (resetForTab t f).swiftCode = "" ∧
    (resetForTab t f).bankAddress = "" ∧
    (resetForTab t f).bankCountry = "" ∧
    (resetForTab t f).currency = (if t = .international then ("USD") else ("")) ∧
    (resetForTab t f).transferType = t := by
  have ho : ∀ s : String, orEmpty s = s := by
    intro s
    unfold orEmpty
    split <;> simp_all
  cases t <;> simp [resetForTab, ho]

/-- C9 counterexample: switching from the international tab (currency
`"EUR"`) to the domestic tab leaves `currency` cleared, not at its
default `"USD"`, refuting "resets every variant-specific field of both
variants to its default (... currency \"USD\")". -/
theorem tabChange_currency_cex :
    euroFormFields.transferType = .international ∧
    euroFormFields.currency = "EUR" ∧
    (resetForTab .domestic euroFormFields).currency = "" ∧
    (resetForTab .domestic euroFormFields).currency ≠ "USD" := by decide

/-- C10: the domestic routing-number rule is purely a length check —
a field error for `routingNumber` is produced exactly when the length
differs from 9; the 9-letter string `"abcdefghi"` passes the whole
schema even though the too-short message reads "Routing number must be
9 digits.", and over-long strings fail with zod's default `max`
message. -/
theorem routingNumber_length_only :
    (∀ d : DomesticDraft,
      "routingNumber" ∈ (validateDomestic d).map Prod.fst ↔
        d.routingNumber.length ≠ 9) ∧
    validateDomestic { johnDoeDraft with routingNumber := "abcdefghi" } = [] ∧
    validateDomestic { johnDoeDraft with routingNumber := "12345678" } =
      [("routingNumber", "Routing number must be 9 digits.")] ∧
    validateDomestic { johnDoeDraft with routingNumber := "1234567890" } =
      [("routingNumber", "String must contain at most 9 character(s)")] := by
  refine ⟨fun d => ?_, by decide, by decide, by decide⟩
  have h := mem_fields_iff (.domestic d) "routingNumber"
  simp only [validateTransfer, fieldViolated] at h
  rw [h]
  simp
